import Mathlib

/-!
Verification of the Truemailer domain-reputation engine.

This file gives a shallow embedding of the core of the repository
(src/main.py, together with the standalone helper src/email_checker.py)
and proves properties of the classification pipeline, the blocklist
aggregation, the MX lookup, and the per-client quota ledger.

Strings are embedded as `List Char`; Python string methods used by the
code (strip, lower, split, startswith, endswith, count, membership) are
modelled char-for-char below.  Side effects are made explicit: the DNS
resolver is an oracle (with a lookup counter where the number of lookups
is the observable), HTTP responses are passed in as values, the global
CLIENTS dictionary is threaded as a value, and the wall clock together
with the server's timezone offset are explicit parameters.
-/

namespace Truemailer

/-! ## Python string primitives -/

/-- Python whitespace (the ASCII part relevant here): space (32), tab (9),
newline (10), carriage return (13), vertical tab (11) and form feed (12).
This is the character class stripped by str.strip() and matched by the
regex class backslash-s. -/
def pySpace (c : Char) : Bool :=
  decide (c.toNat = 32 ∨ c.toNat = 9 ∨ c.toNat = 10 ∨ c.toNat = 13 ∨
    c.toNat = 11 ∨ c.toNat = 12)

/-- Python str.strip(): remove leading and trailing whitespace. -/
def pyStrip (cs : List Char) : List Char :=
  (cs.dropWhile pySpace).rdropWhile pySpace

/-- Python str.strip(chars): remove leading and trailing characters from a
given set. -/
def pyStripAny (p : Char → Bool) (cs : List Char) : List Char :=
  (cs.dropWhile p).rdropWhile p

/-- Python str.lower() (ASCII part, which is all the code's own constants
use). -/
def pyLower (cs : List Char) : List Char :=
  cs.map Char.toLower

/-- Split at the first occurrence of a separator: `some (before, after)` when
the separator occurs, `none` otherwise.  This models both
s.split(sep, 1) and the unique way an anchored regex with separator-free
sides can decompose a string. -/
def splitAtFirst (sep : Char) : List Char → Option (List Char × List Char)
  | [] => none
  | c :: cs =>
    if c = sep then some ([], cs)
    else
      match splitAtFirst sep cs with
      | some (l, r) => some (c :: l, r)
      | none => none

/-- Python s.split(sep) on a single character separator (all occurrences);
always returns at least one piece. -/
def splitOnChar (sep : Char) : List Char → List (List Char)
  | [] => [[]]
  | c :: cs =>
    if c = sep then [] :: splitOnChar sep cs
    else
      match splitOnChar sep cs with
      | [] => [[c]]
      | h :: t => (c :: h) :: t

/-- Python s.startswith(t). -/
def startsWithL : List Char → List Char → Bool
  | [], _ => true
  | _ :: _, [] => false
  | p :: ps, c :: cs => p = c && startsWithL ps cs

/-- Python t in s (substring containment). -/
def containsSub (pat : List Char) : List Char → Bool
  | [] => startsWithL pat []
  | c :: cs => startsWithL pat (c :: cs) || containsSub pat cs

/-- Python s.endswith(t). -/
def endsWithL (suf cs : List Char) : Bool :=
  startsWithL suf.reverse cs.reverse

/-- Python s.count(ch). -/
def countChar (a : Char) (cs : List Char) : Nat :=
  (cs.filter (fun c => c = a)).length

/-- Number of decimal digit characters, as summed by the code with
sum(c.isdigit() for c in d). -/
def digitCount (cs : List Char) : Nat :=
  (cs.filter Char.isDigit).length

/-- Python s.isalpha(): nonempty and every character alphabetic. -/
def isalphaStr (cs : List Char) : Bool :=
  !cs.isEmpty && cs.all Char.isAlpha

/-! ## main.py: configuration constants -/

/-- TRUSTED_PROVIDERS from main.py (the allow-list; a Python set, embedded
as the list of its members, queried by membership). -/
def TRUSTED_PROVIDERS : List (List Char) :=
  [ "gmail.com".data, "googlemail.com".data, "outlook.com".data,
    "hotmail.com".data, "yahoo.com".data, "icloud.com".data,
    "protonmail.com".data, "zoho.com".data, "mail.com".data,
    "yandex.com".data, "aol.com".data, "gmx.com".data,
    "fastmail.com".data, "tutanota.com".data ]

/-- SUSPECT_PATTERNS from main.py (substring heuristics). -/
def SUSPECT_PATTERNS : List (List Char) :=
  [ "temp".data, "tempmail".data, "mailinator".data, "inbox".data,
    "trash".data, "shark".data, "guerrilla".data, "getnada".data,
    "spam".data, "fake".data, "free".data, "gta5".data, "forex".data,
    "yopmail".data, "dispostable".data, "mintemail".data ]

/-! ## main.py: heuristics and checks -/

/-- EMAIL_RE from main.py compiled over a string: the anchored pattern of
one to sixty-four characters that are neither at-sign nor whitespace, an
at-sign, then one to 255 such characters.  Both sides exclude the at-sign,
so a matching string decomposes uniquely at its only at-sign.
is_valid_email_syntax in the source is bool(EMAIL_RE.match(email)); the
name here avoids a reserved word.  (Python's dollar anchor would also
accept one trailing newline; the caller always strips first, so the
difference is invisible to verify_email_core.) -/
def is_valid_email_format (email : List Char) : Bool :=
  match splitAtFirst '@' email with
  | some (l, d) =>
      (1 ≤ l.length && l.length ≤ 64 &&
        l.all (fun c => !(c = '@') && !pySpace c)) &&
      (1 ≤ d.length && d.length ≤ 255 &&
        d.all (fun c => !(c = '@') && !pySpace c))
  | none => false

/-- domain_from_email from main.py:
(email.split("@", 1)[-1] or "").lower().strip().  With maxsplit 1 the last
piece is everything after the first at-sign, or the whole string when
there is none. -/
def domain_from_email (email : List Char) : List Char :=
  let tail :=
    match splitAtFirst '@' email with
    | some (_, r) => r
    | none => email
  pyStrip (pyLower tail)

/-- suspicious_by_pattern from main.py: any suspect substring, or at least
four digit characters, or any dot-separated label that is purely
alphabetic of length at most two. -/
def suspicious_by_pattern (domain : List Char) : Bool :=
  let d := pyLower domain
  if SUSPECT_PATTERNS.any (fun p => containsSub p d) then true
  else if 4 ≤ digitCount d then true
  else if (splitOnChar '.' d).any
      (fun lbl => decide (lbl.length ≤ 2) && isalphaStr lbl) then true
  else false

/-- is_disposable_domain from main.py.  BLOCKSET (the global set guarded by
BLOCKSET_LOCK) is passed in as a finite set of domains. -/
def is_disposable_domain (blockset : Finset (List Char)) (domain : List Char) : Bool :=
  let d := pyStrip (pyLower domain)
  if d ∈ blockset then true
  else if suspicious_by_pattern d then true
  else false

/-- has_mx from main.py: one call to dns.resolver.resolve(domain, "MX");
any exception (timeout, NXDOMAIN, SERVFAIL, ...) yields False.  The
resolver is an oracle from domains to the Boolean outcome of that single
lookup; the try/except is absorbed into the oracle's Boolean. -/
def has_mx (resolve : List Char → Bool) (domain : List Char) : Bool :=
  resolve domain

/-- Observable state of the DNS layer: how many underlying lookups have
been issued (the call counter the specification's cache property is
stated against). -/
structure DnsCalls where
  lookups : Nat
deriving DecidableEq

/-- One invocation of dns.resolver.resolve under the instrumented oracle:
returns the oracle's answer and bumps the lookup counter. -/
def resolveCounted (resolve : List Char → Bool) (domain : List Char)
    (s : DnsCalls) : Bool × DnsCalls :=
  (resolve domain, ⟨s.lookups + 1⟩)

/-- has_mx with the instrumented resolver.  The body of has_mx in main.py
(lines 230-235) consults no cache and keeps no state: every call performs
exactly one resolver invocation. -/
def has_mx_counted (resolve : List Char → Bool) (domain : List Char)
    (s : DnsCalls) : Bool × DnsCalls :=
  resolveCounted resolve domain s

/-! ## main.py: core verification -/

/-- The JSON object verify_email_core returns.  The "empty" and
"invalid_syntax" verdicts carry no disposable/mx/provider keys, hence the
Option fields. -/
structure Verdict where
  email : List Char
  valid : Bool
  reason : List Char
  disposable : Option Bool
  mx : Option Bool
  provider : Option (List Char)
deriving DecidableEq

/-- verify_email_core from main.py: strip; empty check; syntax check;
allowlist (TRUSTED_PROVIDERS) check; blocklist plus heuristic check; MX
check.  Each stage is terminal on match. -/
def verify_email_core (blockset : Finset (List Char))
    (resolve : List Char → Bool) (email : List Char) : Verdict :=
  let email := pyStrip email
  if email.isEmpty then
    ⟨email, false, "empty".data, none, none, none⟩
  else if !(is_valid_email_format email) then
    ⟨email, false, "invalid_syntax".data, none, none, none⟩
  else
    let domain := domain_from_email email
    if TRUSTED_PROVIDERS.contains domain then
      ⟨email, true, "trusted_provider".data, some false,
        some (has_mx resolve domain), some domain⟩
    else if is_disposable_domain blockset domain then
      ⟨email, false, "disposable_domain".data, some true,
        some (has_mx resolve domain), some domain⟩
    else
      let mx_ok := has_mx resolve domain
      if !mx_ok then
        ⟨email, false, "no_mx".data, some false, some false, some domain⟩
      else
        ⟨email, true, "valid".data, some false, some true, some domain⟩

/-! ## main.py: quota ledger

The CLIENTS dictionary is threaded as a value: an association list from
client id to record.  datetime.date.today() reads the ambient wall clock
and the server's local timezone; both are passed explicitly (seconds since
the epoch, and the local UTC offset in seconds).  The ISO date string the
code uses as a usage key is in bijection with the local day number, so
usage keys are embedded as day numbers (Int). -/

/-- One value of the CLIENTS dictionary: key, daily limit and the per-day
usage map (an association list from day number to count). -/
structure ClientRec where
  key : List Char
  limit : Nat
  usage : List (Int × Nat)
deriving DecidableEq

/-- The CLIENTS dictionary: client id to record. -/
abbrev Clients := List (List Char × ClientRec)

/-- Python usage.get(today, 0): the value at the first (and in a dict,
only) matching key, default 0. -/
def usageGet : List (Int × Nat) → Int → Nat
  | [], _ => 0
  | p :: ps, d => if p.1 = d then p.2 else usageGet ps d

/-- Python usage[today] = n on an insertion-ordered dict with unique
keys: replace the entry in place if the key is present, append it
otherwise. -/
def usageSet : List (Int × Nat) → Int → Nat → List (Int × Nat)
  | [], d, n => [(d, n)]
  | p :: ps, d, n => if p.1 = d then (d, n) :: ps else p :: usageSet ps d n

/-- datetime.date.today(): the server's LOCAL calendar date, as a day
number -- the floor of (now + tzOff) / 86400. -/
def date_today (now tzOff : Int) : Int :=
  Int.fdiv (now + tzOff) 86400

/-- The UTC calendar date of the same instant. -/
def utc_date (now : Int) : Int :=
  Int.fdiv now 86400

/-- get_client_id_by_key from main.py: first client whose key field
matches. -/
def get_client_id_by_key (clients : Clients) (key : List Char) :
    Option (List Char) :=
  match clients.find? (fun p => p.2.key == key) with
  | some p => some p.1
  | none => none

/-- Python CLIENTS[cid] = record for an association list. -/
def updateClient (clients : Clients) (cid : List Char) (c : ClientRec) :
    Clients :=
  clients.map (fun p => if p.1 == cid then (cid, c) else p)

/-- check_and_consume_quota from main.py: missing key, unknown key, then
under the lock read today's count, compare to the limit; at or over the
limit return daily_limit_exceeded without touching state, otherwise
increment and persist.  Returns ((ok, reason), new CLIENTS state); the
save_clients() call persists exactly the returned state. -/
def check_and_consume_quota (clients : Clients) (key : List Char)
    (now tzOff : Int) : (Bool × Option (List Char)) × Clients :=
  if key.isEmpty then
    ((false, some ("missing_api_key".data)), clients)
  else
    match clients.find? (fun p => p.2.key == key) with
    | none => ((false, some ("invalid_api_key".data)), clients)
    | some (cid, client) =>
      let today := date_today now tzOff
      let cnt := usageGet client.usage today
      if client.limit ≤ cnt then
        ((false, some ("daily_limit_exceeded".data)), clients)
      else
        ((true, none),
          updateClient clients cid
            ⟨client.key, client.limit, usageSet client.usage today (cnt + 1)⟩)

/-- A sequence of n check_and_consume_quota calls for one key at a fixed
instant: the list of ok flags in call order, and the final CLIENTS
state. -/
def runQuota (key : List Char) (now tzOff : Int) :
    Nat → Clients → List Bool × Clients
  | 0, clients => ([], clients)
  | Nat.succ n, clients =>
    let r := check_and_consume_quota clients key now tzOff
    let rest := runQuota key now tzOff n r.2
    (r.1.1 :: rest.1, rest.2)

/-! ## main.py: blocklist aggregation

fetch_remote_blocklists_once iterates over REMOTE_BLOCKLIST_URLS.  The
HTTP layer is passed in as one value per configured URL: none models a
raised exception, some (status, body) a completed response.  The local
blocklist file is a set of already-normalized domain lines; it is passed
in as the Finset load_local_blocklist would return and the function
returns the count together with the set save_local_blocklist writes. -/

/-- Characters admitted by the aggregation regex left of the last dot:
lowercase letters, digits, dot, hyphen. -/
def domCharOk (c : Char) : Bool :=
  ('a' ≤ c && c ≤ 'z') || ('0' ≤ c && c ≤ '9') || c = '.' || c = '-'

/-- Lowercase letter. -/
def lowerAlpha (c : Char) : Bool :=
  'a' ≤ c && c ≤ 'z'

/-- The anchored aggregation regex of main.py line 188: one or more of
[a-z0-9.-], a dot, then two or more lowercase letters.  Since the suffix
after the matching dot may not contain a dot, the pattern matches exactly
when the decomposition at the LAST dot has a nonempty admissible left
part and an alphabetic right part of length at least two. -/
def domainReMatch (s : List Char) : Bool :=
  match splitAtFirst '.' s.reverse with
  | none => false
  | some (bRev, aRev) =>
    let b := bRev.reverse
    let a := aRev.reverse
    2 ≤ b.length && b.all lowerAlpha && !a.isEmpty && a.all domCharOk

/-- The characters stripped by ln.strip of quote, apostrophe, comma and
space in main.py line 184. -/
def junkChar (c : Char) : Bool :=
  c = '"' || c = '\'' || c = ',' || c = ' '

/-- The per-line normalization of fetch_remote_blocklists_once (main.py
lines 181-189): strip; skip empty and comment lines; strip quote
characters; drop the local part when exactly one at-sign is present;
lowercase; keep only lines matching the domain regex. -/
def parseLine (line : List Char) : Option (List Char) :=
  let ln := pyStrip line
  if ln.isEmpty then none
  else if startsWithL ("#".data) ln then none
  else
    let ln := pyStripAny junkChar ln
    let ln :=
      if ln.contains '@' && (countChar '@' ln == 1) then
        match splitAtFirst '@' ln with
        | some (_, r) => r
        | none => ln
      else ln
    let ln := pyLower ln
    if domainReMatch ln then some ln else none

/-- Python text.splitlines() restricted to LF, CR and CRLF terminators.
(Python also drops one final empty line; parseLine skips empty lines, so
the extra empty pieces produced here contribute nothing.) -/
def splitLines (text : List Char) : List (List Char) :=
  ((splitOnChar '\n' text).map (splitOnChar '\x0d')).flatten

/-- The set of domains one configured source contributes: nothing on a
raised exception or a non-200 status, otherwise the normalized lines of
the body. -/
def sourceDomains (resp : Option (Nat × List Char)) : Finset (List Char) :=
  match resp with
  | some (status, text) =>
    if status = 200 then ((splitLines text).filterMap parseLine).toFinset
    else ∅
  | none => ∅

/-- A source fetch that contributed nothing: an exception or a non-200
response. -/
def sourceFailed (resp : Option (Nat × List Char)) : Bool :=
  match resp with
  | none => true
  | some (status, _) => !(status == 200)

/-- fetch_remote_blocklists_once from main.py: union the contributions of
all sources, merge in the saved local blocklist, save the merged set and
return its size (paired here with the saved set itself). -/
def fetch_remote_blocklists_once (responses : List (Option (Nat × List Char)))
    (localList : Finset (List Char)) : Nat × Finset (List Char) :=
  let domains := responses.foldl (fun acc r => acc ∪ sourceDomains r) ∅
  let merged := domains ∪ localList
  (merged.card, merged)

/-! ## email_checker.py -/

/-- is_allowed from email_checker.py: domain is the piece after the last
at-sign, lowercased and stripped; trusted when it ends with any allowlist
entry (suffix match); otherwise blocked exactly when it is in the
blocklist.  The JSON-loaded allowlist and blocklist are parameters. -/
def is_allowed (allowlist blocklist : List (List Char))
    (email : List Char) : Bool :=
  let domain := pyStrip (pyLower ((splitOnChar '@' email).getLastD []))
  if allowlist.any (fun a => endsWithL a domain) then true
  else if blocklist.contains domain then false
  else true

/-! ## The spec's syntax shape (for comparison with the code) -/

/-- Modelled from the spec wording only, for comparison with EMAIL_RE: a
permissive shape of a local part, an at-sign, and a domain that contains a
dot whose suffix is purely alphabetic of length at least two. -/
def specEmailShape (s : List Char) : Bool :=
  match splitAtFirst '@' s with
  | none => false
  | some (l, d) =>
    !l.isEmpty &&
      (match splitAtFirst '.' d.reverse with
       | none => false
       | some (bRev, _) => 2 ≤ bRev.length && bRev.all Char.isAlpha)

/-! ## Character and normalization lemmas

The classifier re-normalizes (lower + strip) values that
domain_from_email has already normalized; the lemmas here show that
normalization is idempotent, so hypotheses can be stated about the domain
itself. -/

theorem toNat_ofNat_small {n : Nat} (h : n < 55296) : (Char.ofNat n).toNat = n := by
  rw [Char.ofNat, dif_pos (Or.inl h)]
  rfl

theorem toLower_eq_of (c : Char) (h : c.toNat ≥ 65 ∧ c.toNat ≤ 90) :
    c.toLower = Char.ofNat (c.toNat + 32) := by
  simp only [Char.toLower]
  rw [if_pos h]

theorem toLower_eq_self (c : Char) (h : ¬(c.toNat ≥ 65 ∧ c.toNat ≤ 90)) :
    c.toLower = c := by
  simp only [Char.toLower]
  rw [if_neg h]

theorem toLower_toLower (c : Char) : c.toLower.toLower = c.toLower := by
  by_cases h : c.toNat ≥ 65 ∧ c.toNat ≤ 90
  · rw [toLower_eq_of c h]
    have hn : (Char.ofNat (c.toNat + 32)).toNat = c.toNat + 32 :=
      toNat_ofNat_small (by omega)
    apply toLower_eq_self
    rw [hn]
    omega
  · rw [toLower_eq_self c h, toLower_eq_self c h]

theorem pySpace_toLower (c : Char) : pySpace c.toLower = pySpace c := by
  by_cases h : c.toNat ≥ 65 ∧ c.toNat ≤ 90
  · rw [toLower_eq_of c h]
    have hn : (Char.ofNat (c.toNat + 32)).toNat = c.toNat + 32 :=
      toNat_ofNat_small (by omega)
    simp only [pySpace, hn]
    rw [decide_eq_decide]
    omega
  · rw [toLower_eq_self c h]

theorem pyLower_pyLower (cs : List Char) : pyLower (pyLower cs) = pyLower cs := by
  simp only [pyLower, List.map_map]
  exact List.map_congr_left (fun a _ => toLower_toLower a)

theorem pyLower_dropWhile (cs : List Char) :
    pyLower (cs.dropWhile pySpace) = (pyLower cs).dropWhile pySpace := by
  induction cs with
  | nil => rfl
  | cons c t ih =>
    cases hc : pySpace c with
    | true =>
      simpa [pyLower, List.dropWhile_cons, hc, pySpace_toLower] using ih
    | false =>
      simp [pyLower, List.dropWhile_cons, hc, pySpace_toLower]

theorem pyLower_reverse (cs : List Char) :
    pyLower cs.reverse = (pyLower cs).reverse :=
  List.map_reverse Char.toLower cs

theorem pyLower_rdropWhile (cs : List Char) :
    pyLower (cs.rdropWhile pySpace) = (pyLower cs).rdropWhile pySpace := by
  show pyLower (cs.reverse.dropWhile pySpace).reverse = _
  rw [pyLower_reverse, pyLower_dropWhile, pyLower_reverse]
  rfl

theorem pyLower_pyStrip (cs : List Char) :
    pyLower (pyStrip cs) = pyStrip (pyLower cs) := by
  show pyLower ((cs.dropWhile pySpace).rdropWhile pySpace) = _
  rw [pyLower_rdropWhile, pyLower_dropWhile]
  rfl

theorem dropWhile_eq_self_of_head {p : Char → Bool} {l : List Char}
    (h : ∀ a, l.head? = some a → p a = false) : l.dropWhile p = l := by
  cases l with
  | nil => rfl
  | cons a t => simp [List.dropWhile_cons, h a rfl]

theorem head?_dropWhile_false {p : Char → Bool} (l : List Char) (a : Char)
    (h : (l.dropWhile p).head? = some a) : p a = false := by
  have hm := List.head?_dropWhile_not p l
  rw [h] at hm
  exact hm

theorem dropWhile_pyStrip (cs : List Char) :
    (pyStrip cs).dropWhile pySpace = pyStrip cs := by
  apply dropWhile_eq_self_of_head
  intro a ha
  obtain ⟨r, hr⟩ := List.rdropWhile_prefix (p := pySpace) (l := cs.dropWhile pySpace)
  apply head?_dropWhile_false cs a
  rw [← hr, List.head?_append]
  have ha2 : (List.rdropWhile pySpace (List.dropWhile pySpace cs)).head? = some a := ha
  rw [ha2]
  rfl

theorem pyStrip_pyStrip (cs : List Char) : pyStrip (pyStrip cs) = pyStrip cs := by
  have h1 := dropWhile_pyStrip cs
  show ((pyStrip cs).dropWhile pySpace).rdropWhile pySpace = pyStrip cs
  rw [h1]
  show ((cs.dropWhile pySpace).rdropWhile pySpace).rdropWhile pySpace = pyStrip cs
  rw [List.rdropWhile_idempotent]
  rfl

theorem normTwice (t : List Char) :
    pyStrip (pyLower (pyStrip (pyLower t))) = pyStrip (pyLower t) := by
  rw [pyLower_pyStrip, pyLower_pyLower, pyStrip_pyStrip]

theorem lowerNormTwice (t : List Char) :
    pyLower (pyStrip (pyLower t)) = pyStrip (pyLower t) := by
  rw [pyLower_pyStrip, pyLower_pyLower]

theorem domain_norm (email : List Char) :
    pyStrip (pyLower (domain_from_email email)) = domain_from_email email := by
  unfold domain_from_email
  cases splitAtFirst '@' email with
  | none => exact normTwice email
  | some p => exact normTwice p.2

theorem domain_lower (email : List Char) :
    pyLower (domain_from_email email) = domain_from_email email := by
  unfold domain_from_email
  cases splitAtFirst '@' email with
  | none => exact lowerNormTwice email
  | some p => exact lowerNormTwice p.2

/-! ## Structural lemmas about the classifier -/

/-- The if-chain of suspicious_by_pattern as a disjunction. -/
theorem suspicious_by_pattern_eq (domain : List Char) :
    suspicious_by_pattern domain =
      (SUSPECT_PATTERNS.any (fun p => containsSub p (pyLower domain)) ||
       decide (4 ≤ digitCount (pyLower domain)) ||
       (splitOnChar '.' (pyLower domain)).any
         (fun lbl => decide (lbl.length ≤ 2) && isalphaStr lbl)) := by
  unfold suspicious_by_pattern
  cases h1 : SUSPECT_PATTERNS.any (fun p => containsSub p (pyLower domain)) with
  | true => simp [h1]
  | false =>
    cases h2 : decide (4 ≤ digitCount (pyLower domain)) with
    | true => simp [h1, h2, of_decide_eq_true h2]
    | false =>
      cases h3 : (splitOnChar '.' (pyLower domain)).any
          (fun lbl => decide (lbl.length ≤ 2) && isalphaStr lbl) with
      | true => simp [h1, h2, h3, of_decide_eq_false h2]
      | false => simp [h1, h2, h3, of_decide_eq_false h2]

/-- The if-chain of is_disposable_domain as a disjunction. -/
theorem is_disposable_domain_eq (blockset : Finset (List Char))
    (domain : List Char) :
    is_disposable_domain blockset domain =
      (decide (pyStrip (pyLower domain) ∈ blockset) ||
       suspicious_by_pattern (pyStrip (pyLower domain))) := by
  unfold is_disposable_domain
  cases h1 : decide (pyStrip (pyLower domain) ∈ blockset) with
  | true => simp [of_decide_eq_true h1]
  | false =>
    cases h2 : suspicious_by_pattern (pyStrip (pyLower domain)) with
    | true => simp [of_decide_eq_false h1, h2]
    | false => simp [of_decide_eq_false h1, h2]

/-- A string matching EMAIL_RE is nonempty. -/
theorem valid_format_nonempty {cs : List Char}
    (h : is_valid_email_format cs = true) : cs.isEmpty = false := by
  cases cs with
  | nil => simp [is_valid_email_format, splitAtFirst] at h
  | cons c t => rfl

/-! ## Branch lemmas for verify_email_core

One lemma per terminal stage; the claim theorems below are stated from
these. -/

/-- Allowlist branch: domain in TRUSTED_PROVIDERS. -/
theorem verify_core_trusted (blockset : Finset (List Char))
    (resolve : List Char → Bool) (email : List Char)
    (hs : is_valid_email_format (pyStrip email) = true)
    (hd : TRUSTED_PROVIDERS.contains (domain_from_email (pyStrip email)) = true) :
    verify_email_core blockset resolve email =
      ⟨pyStrip email, true, "trusted_provider".data, some false,
        some (resolve (domain_from_email (pyStrip email))),
        some (domain_from_email (pyStrip email))⟩ := by
  have he := valid_format_nonempty hs
  have hd2 : domain_from_email (pyStrip email) ∈ TRUSTED_PROVIDERS := by
    simpa using hd
  simp [verify_email_core, has_mx, he, hs, hd2]

/-- Blocklist-or-heuristic branch: domain not trusted but disposable. -/
theorem verify_core_disposable (blockset : Finset (List Char))
    (resolve : List Char → Bool) (email : List Char)
    (hs : is_valid_email_format (pyStrip email) = true)
    (ht : TRUSTED_PROVIDERS.contains (domain_from_email (pyStrip email)) = false)
    (hd : is_disposable_domain blockset (domain_from_email (pyStrip email)) = true) :
    verify_email_core blockset resolve email =
      ⟨pyStrip email, false, "disposable_domain".data, some true,
        some (resolve (domain_from_email (pyStrip email))),
        some (domain_from_email (pyStrip email))⟩ := by
  have he := valid_format_nonempty hs
  have ht2 : domain_from_email (pyStrip email) ∉ TRUSTED_PROVIDERS := by
    simpa using ht
  simp [verify_email_core, has_mx, he, hs, ht2, hd]

/-- MX branch: domain in neither list and not suspicious. -/
theorem verify_core_mx (blockset : Finset (List Char))
    (resolve : List Char → Bool) (email : List Char)
    (hs : is_valid_email_format (pyStrip email) = true)
    (ht : TRUSTED_PROVIDERS.contains (domain_from_email (pyStrip email)) = false)
    (hd : is_disposable_domain blockset (domain_from_email (pyStrip email)) = false) :
    verify_email_core blockset resolve email =
      (if resolve (domain_from_email (pyStrip email)) then
        ⟨pyStrip email, true, "valid".data, some false, some true,
          some (domain_from_email (pyStrip email))⟩
      else
        ⟨pyStrip email, false, "no_mx".data, some false, some false,
          some (domain_from_email (pyStrip email))⟩) := by
  have he := valid_format_nonempty hs
  have ht2 : domain_from_email (pyStrip email) ∉ TRUSTED_PROVIDERS := by
    simpa using ht
  cases hr : resolve (domain_from_email (pyStrip email)) with
  | true => simp [verify_email_core, has_mx, he, hs, ht2, hd, hr]
  | false => simp [verify_email_core, has_mx, he, hs, ht2, hd, hr]

/-- Syntax-failure branch. -/
theorem verify_core_invalid (blockset : Finset (List Char))
    (resolve : List Char → Bool) (email : List Char)
    (hne : (pyStrip email).isEmpty = false)
    (hs : is_valid_email_format (pyStrip email) = false) :
    verify_email_core blockset resolve email =
      ⟨pyStrip email, false, "invalid_syntax".data, none, none, none⟩ := by
  simp [verify_email_core, hne, hs]

/-! ## The classification pipeline: allowlist stage (claim C1) -/

/-- C1: for every syntactically valid email whose domain is in
TRUSTED_PROVIDERS, verify_email_core returns the allowlisted verdict
(valid, not disposable) whatever the blocklist contents and whatever MX
resolution would answer: the allowlist stage runs before the blocklist
and heuristic stages and is terminal on match. -/
theorem trusted_domain_terminal (blockset : Finset (List Char))
    (resolve : List Char → Bool) (email : List Char)
    (hs : is_valid_email_format (pyStrip email) = true)
    (hd : TRUSTED_PROVIDERS.contains (domain_from_email (pyStrip email)) = true) :
    verify_email_core blockset resolve email =
      ⟨pyStrip email, true, "trusted_provider".data, some false,
        some (resolve (domain_from_email (pyStrip email))),
        some (domain_from_email (pyStrip email))⟩ :=
  verify_core_trusted blockset resolve email hs hd

/-- C1 witness: a concrete allowlisted domain that is simultaneously in
the blocklist and would fail MX resolution still gets the allowlisted
verdict. -/
theorem trusted_domain_terminal_witness :
    is_valid_email_format (pyStrip ("a@gmail.com".data)) = true ∧
    TRUSTED_PROVIDERS.contains (domain_from_email (pyStrip ("a@gmail.com".data))) = true ∧
    verify_email_core { "gmail.com".data } (fun _ => false) ("a@gmail.com".data) =
      ⟨pyStrip ("a@gmail.com".data), true, "trusted_provider".data, some false,
        some false, some (domain_from_email (pyStrip ("a@gmail.com".data)))⟩ :=
  ⟨by decide, by decide,
    trusted_domain_terminal { "gmail.com".data } (fun _ => false)
      ("a@gmail.com".data) (by decide) (by decide)⟩

/-! ## The classification pipeline: MX stage (claim C2) -/

/-- C2 counterexample: for a domain in neither list and matching no
heuristic, with no MX record the code returns the no_mx verdict with
disposable FALSE -- not disposable true as the claim states. -/
theorem no_mx_not_disposable_cex :
    (verify_email_core ∅ (fun _ => false)
        ("a@nxdomain-example-zzz.test".data)).disposable = some false ∧
    (verify_email_core ∅ (fun _ => false)
        ("a@nxdomain-example-zzz.test".data)).reason = "no_mx".data ∧
    some false ≠ some true := by
  decide

/-- C2 amended: for a syntactically valid email whose domain is not
trusted, not blocklisted and not heuristically suspicious, the verdict is
decided by the MX lookup alone: no MX record gives
(valid false, disposable FALSE, reason no_mx); an MX record gives
(valid true, disposable false, reason valid). -/
theorem mx_stage_verdicts (blockset : Finset (List Char))
    (resolve : List Char → Bool) (email : List Char)
    (hs : is_valid_email_format (pyStrip email) = true)
    (ht : TRUSTED_PROVIDERS.contains (domain_from_email (pyStrip email)) = false)
    (hd : is_disposable_domain blockset (domain_from_email (pyStrip email)) = false) :
    verify_email_core blockset resolve email =
      (if resolve (domain_from_email (pyStrip email)) then
        ⟨pyStrip email, true, "valid".data, some false, some true,
          some (domain_from_email (pyStrip email))⟩
      else
        ⟨pyStrip email, false, "no_mx".data, some false, some false,
          some (domain_from_email (pyStrip email))⟩) :=
  verify_core_mx blockset resolve email hs ht hd

/-- C2 amended witness: the concrete no-MX scenario of the spec example. -/
theorem mx_stage_verdicts_witness :
    is_valid_email_format (pyStrip ("a@nxdomain-example-zzz.test".data)) = true ∧
    TRUSTED_PROVIDERS.contains
      (domain_from_email (pyStrip ("a@nxdomain-example-zzz.test".data))) = false ∧
    is_disposable_domain ∅
      (domain_from_email (pyStrip ("a@nxdomain-example-zzz.test".data))) = false ∧
    verify_email_core ∅ (fun _ => false) ("a@nxdomain-example-zzz.test".data) =
      (if (fun (_ : List Char) => false)
          (domain_from_email (pyStrip ("a@nxdomain-example-zzz.test".data))) then
        ⟨pyStrip ("a@nxdomain-example-zzz.test".data), true, "valid".data,
          some false, some true,
          some (domain_from_email (pyStrip ("a@nxdomain-example-zzz.test".data)))⟩
      else
        ⟨pyStrip ("a@nxdomain-example-zzz.test".data), false, "no_mx".data,
          some false, some false,
          some (domain_from_email (pyStrip ("a@nxdomain-example-zzz.test".data)))⟩) :=
  ⟨by decide, by decide, by decide,
    mx_stage_verdicts ∅ (fun _ => false) ("a@nxdomain-example-zzz.test".data)
      (by decide) (by decide) (by decide)⟩

/-! ## The classification pipeline: syntax stage (claim C4) -/

/-- C4 counterexample: "a@b" does not have the spec's
dotted-domain-with-letter-suffix shape, yet EMAIL_RE accepts it, the
syntax stage passes it through, and it is classified by a later stage
(the heuristic stage, reason disposable_domain) -- not rejected as an
invalid format. -/
theorem dotless_domain_passes_cex :
    specEmailShape ("a@b".data) = false ∧
    is_valid_email_format ("a@b".data) = true ∧
    (verify_email_core ∅ (fun _ => false) ("a@b".data)).reason =
      "disposable_domain".data ∧
    (verify_email_core ∅ (fun _ => false) ("a@b".data)).reason ≠
      "invalid_syntax".data := by
  decide

/-- C4 amended: the syntax stage is exactly EMAIL_RE -- one to 64
non-at-sign non-whitespace characters, an at-sign, and one to 255 such
characters, with NO dot or letter-suffix requirement on the domain.  A
nonempty stripped input failing that shape gets the terminal verdict
(valid false, reason invalid_syntax, labelled invalid_syntax rather than
the spec's invalid_format) with no later stage reached, and every input
of that shape passes the syntax stage (its verdict comes from a later
stage). -/
theorem syntax_stage_exact (blockset : Finset (List Char))
    (resolve : List Char → Bool) (email : List Char)
    (hne : (pyStrip email).isEmpty = false) :
    (is_valid_email_format (pyStrip email) = false →
      verify_email_core blockset resolve email =
        ⟨pyStrip email, false, "invalid_syntax".data, none, none, none⟩) ∧
    (is_valid_email_format (pyStrip email) = true →
      (verify_email_core blockset resolve email).reason ≠ "invalid_syntax".data ∧
      (verify_email_core blockset resolve email).reason ≠ "empty".data) := by
  constructor
  · intro hs
    exact verify_core_invalid blockset resolve email hne hs
  · intro hs
    cases hcc : TRUSTED_PROVIDERS.contains (domain_from_email (pyStrip email)) with
    | true =>
      rw [verify_core_trusted blockset resolve email hs hcc]
      exact ⟨by simp, by simp⟩
    | false =>
      cases hdisp : is_disposable_domain blockset (domain_from_email (pyStrip email)) with
      | true =>
        rw [verify_core_disposable blockset resolve email hs hcc hdisp]
        exact ⟨by simp, by simp⟩
      | false =>
        rw [verify_core_mx blockset resolve email hs hcc hdisp]
        cases resolve (domain_from_email (pyStrip email)) <;>
          exact ⟨by simp, by simp⟩

/-- C4 amended witness: "not-an-email" is rejected as invalid_syntax, and
"a@b" (which matches EMAIL_RE) is not. -/
theorem syntax_stage_exact_witness :
    (pyStrip ("not-an-email".data)).isEmpty = false ∧
    verify_email_core ∅ (fun _ => false) ("not-an-email".data) =
      ⟨pyStrip ("not-an-email".data), false, "invalid_syntax".data,
        none, none, none⟩ ∧
    (verify_email_core ∅ (fun _ => false) ("a@b".data)).reason ≠
      "invalid_syntax".data :=
  ⟨by decide,
    (syntax_stage_exact ∅ (fun _ => false) ("not-an-email".data) (by decide)).1
      (by decide),
    ((syntax_stage_exact ∅ (fun _ => false) ("a@b".data) (by decide)).2
      (by decide)).1⟩

/-! ## The allowlist match is exact, not by suffix (claim C8) -/

/-- C8 counterexample: mail.gmail.com ends with the allowlist entry
gmail.com, but verify_email_core does not return the allowlisted verdict
for it -- with no MX record the verdict is invalid (no_mx), because the
allowlist stage tests exact set membership only. -/
theorem suffix_allowlist_cex :
    endsWithL ("gmail.com".data) ("mail.gmail.com".data) = true ∧
    TRUSTED_PROVIDERS.contains ("gmail.com".data) = true ∧
    domain_from_email (pyStrip ("a@mail.gmail.com".data)) = "mail.gmail.com".data ∧
    (verify_email_core ∅ (fun _ => false) ("a@mail.gmail.com".data)).valid = false := by
  decide

/-- C8 amended: in verify_email_core the allowlist stage matches exactly:
for a syntactically valid email the trusted_provider verdict is returned
if and only if the domain itself is a member of TRUSTED_PROVIDERS.
Suffix matching against the allowlist exists only in the standalone
helper email_checker.is_allowed, which returns True whenever the domain
merely ends with an allowlist entry. -/
theorem allowlist_match_is_exact (blockset : Finset (List Char))
    (resolve : List Char → Bool) (allowlist blocklist : List (List Char))
    (email : List Char)
    (hs : is_valid_email_format (pyStrip email) = true) :
    ((verify_email_core blockset resolve email).reason = "trusted_provider".data ↔
      TRUSTED_PROVIDERS.contains (domain_from_email (pyStrip email)) = true) ∧
    (allowlist.any (fun a => endsWithL a
        (pyStrip (pyLower ((splitOnChar '@' email).getLastD [])))) = true →
      is_allowed allowlist blocklist email = true) := by
  constructor
  · cases hcc : TRUSTED_PROVIDERS.contains (domain_from_email (pyStrip email)) with
    | true =>
      rw [verify_core_trusted blockset resolve email hs hcc]
      simp
    | false =>
      cases hdisp : is_disposable_domain blockset (domain_from_email (pyStrip email)) with
      | true =>
        rw [verify_core_disposable blockset resolve email hs hcc hdisp]
        simp
      | false =>
        rw [verify_core_mx blockset resolve email hs hcc hdisp]
        cases resolve (domain_from_email (pyStrip email)) <;> simp
  · intro h
    unfold is_allowed
    simp only [List.any_eq_true] at h
    simp only [List.getLastD_eq_getLast?] at h
    simp
    exact Or.inl h

/-- C8 amended witness: exact membership gives the allowlisted verdict in
the classifier, and the helper is_allowed accepts a suffix match. -/
theorem allowlist_match_is_exact_witness :
    is_valid_email_format (pyStrip ("a@gmail.com".data)) = true ∧
    (verify_email_core ∅ (fun _ => true) ("a@gmail.com".data)).reason =
      "trusted_provider".data ∧
    is_allowed TRUSTED_PROVIDERS [] ("a@mail.gmail.com".data) = true :=
  ⟨by decide,
    (allowlist_match_is_exact ∅ (fun _ => true) TRUSTED_PROVIDERS []
      ("a@gmail.com".data) (by decide)).1.mpr (by decide),
    (allowlist_match_is_exact ∅ (fun _ => true) TRUSTED_PROVIDERS []
      ("a@mail.gmail.com".data) (by decide)).2 (by decide)⟩

/-! ## The heuristic stage: short labels and digit density (claim C10) -/

/-- C10: for every syntactically valid email whose domain is not trusted,
if some dot-separated label of the domain is purely alphabetic of length
at most two (as is the final label of every two-letter TLD) or the domain
contains at least four digit characters, then the verdict is the
disposable one (valid false, disposable true, reason disposable_domain),
regardless of the blocklist contents and of MX presence. -/
theorem short_label_or_digit_heuristic (blockset : Finset (List Char))
    (resolve : List Char → Bool) (email : List Char)
    (hs : is_valid_email_format (pyStrip email) = true)
    (ht : TRUSTED_PROVIDERS.contains (domain_from_email (pyStrip email)) = false)
    (hh : (splitOnChar '.' (domain_from_email (pyStrip email))).any
            (fun lbl => decide (lbl.length ≤ 2) && isalphaStr lbl) = true ∨
          4 ≤ digitCount (domain_from_email (pyStrip email))) :
    verify_email_core blockset resolve email =
      ⟨pyStrip email, false, "disposable_domain".data, some true,
        some (resolve (domain_from_email (pyStrip email))),
        some (domain_from_email (pyStrip email))⟩ := by
  have hd : is_disposable_domain blockset (domain_from_email (pyStrip email)) = true := by
    rw [is_disposable_domain_eq, domain_norm, suspicious_by_pattern_eq, domain_lower]
    rcases hh with h | h
    · simp [h]
    · simp [h]
  exact verify_core_disposable blockset resolve email hs ht hd

/-- C10 witness: a two-letter TLD domain is classified disposable even
with an empty blocklist and even though it would resolve MX. -/
theorem short_label_or_digit_heuristic_witness :
    is_valid_email_format (pyStrip ("a@example.uk".data)) = true ∧
    TRUSTED_PROVIDERS.contains (domain_from_email (pyStrip ("a@example.uk".data))) = false ∧
    ((splitOnChar '.' (domain_from_email (pyStrip ("a@example.uk".data)))).any
        (fun lbl => decide (lbl.length ≤ 2) && isalphaStr lbl) = true ∨
      4 ≤ digitCount (domain_from_email (pyStrip ("a@example.uk".data)))) ∧
    verify_email_core ∅ (fun _ => true) ("a@example.uk".data) =
      ⟨pyStrip ("a@example.uk".data), false, "disposable_domain".data, some true,
        some true, some (domain_from_email (pyStrip ("a@example.uk".data)))⟩ :=
  ⟨by decide, by decide, by decide,
    short_label_or_digit_heuristic ∅ (fun _ => true) ("a@example.uk".data)
      (by decide) (by decide) (by decide)⟩

/-! ## The MX lookup performs no caching (claim C5) -/

/-- C5 counterexample: two immediate has_mx calls for the same domain --
trivially within any TTL window -- issue two underlying DNS lookups, not
at most one: has_mx consults no cache. -/
theorem has_mx_two_lookups_cex :
    ((has_mx_counted (fun _ => true) ("gmail.com".data)
        ((has_mx_counted (fun _ => true) ("gmail.com".data) ⟨0⟩).2)).2).lookups = 2 ∧
    ¬(2 ≤ 1) := by
  decide

/-- C5 amended: has_mx keeps no per-domain cache and has no TTL: every
call performs exactly one underlying DNS lookup, so n-th and (n+1)-th
calls for the same domain add two lookups to any starting state, and each
call's answer is the resolver's fresh answer. -/
theorem has_mx_no_cache (resolve : List Char → Bool) (domain : List Char)
    (s : DnsCalls) :
    ((has_mx_counted resolve domain
        ((has_mx_counted resolve domain s).2)).2).lookups = s.lookups + 2 ∧
    (has_mx_counted resolve domain s).1 = resolve domain ∧
    has_mx resolve domain = resolve domain :=
  ⟨rfl, rfl, rfl⟩

/-! ## Aggregation: failure preservation and idempotence (claims C6, C7) -/

/-- A failed source contributes the empty set. -/
theorem sourceDomains_of_failed {resp : Option (Nat × List Char)}
    (h : sourceFailed resp = true) : sourceDomains resp = ∅ := by
  match resp with
  | none => rfl
  | some (status, text) =>
    have hst : ¬(status = 200) := by
      simpa [sourceFailed] using h
    simp [sourceDomains, hst]

/-- Folding unions of empty contributions changes nothing. -/
theorem foldl_union_failed (responses : List (Option (Nat × List Char)))
    (hf : responses.all sourceFailed = true) (acc : Finset (List Char)) :
    responses.foldl (fun acc r => acc ∪ sourceDomains r) acc = acc := by
  induction responses generalizing acc with
  | nil => rfl
  | cons r rs ih =>
    rw [List.all_cons, Bool.and_eq_true] at hf
    rw [List.foldl_cons, sourceDomains_of_failed hf.1, Finset.union_empty]
    exact ih hf.2 acc

/-- C6: when every configured source fails (raised exception or non-200
response), a refresh cycle saves exactly the previously saved local
blocklist and reports its size: aggregation failure never shrinks,
clears or otherwise changes the stored list. -/
theorem aggregation_failure_preserves_store
    (responses : List (Option (Nat × List Char)))
    (localList : Finset (List Char))
    (hf : responses.all sourceFailed = true) :
    fetch_remote_blocklists_once responses localList =
      (localList.card, localList) := by
  unfold fetch_remote_blocklists_once
  rw [foldl_union_failed responses hf ∅]
  simp

/-- C6 witness: a raised exception and a 404 leave a one-domain local
list untouched. -/
theorem aggregation_failure_preserves_store_witness :
    ([none, some (404, "spam.com".data)].all sourceFailed = true) ∧
    fetch_remote_blocklists_once [none, some (404, "spam.com".data)]
        { "x.com".data } =
      (({ "x.com".data } : Finset (List Char)).card, { "x.com".data }) :=
  ⟨by decide,
    aggregation_failure_preserves_store [none, some (404, "spam.com".data)]
      { "x.com".data } (by decide)⟩

/-- C7: aggregation is idempotent: running the fetch-and-merge cycle a
second time against identical source content, starting from the list the
first run saved, saves exactly the same block set (set equality; the
union of the normalized remote domains with the already-merged local
result adds nothing new). -/
theorem aggregation_idempotent (responses : List (Option (Nat × List Char)))
    (localList : Finset (List Char)) :
    (fetch_remote_blocklists_once responses
        (fetch_remote_blocklists_once responses localList).2).2 =
      (fetch_remote_blocklists_once responses localList).2 := by
  show (responses.foldl (fun acc r => acc ∪ sourceDomains r) ∅) ∪
      ((responses.foldl (fun acc r => acc ∪ sourceDomains r) ∅) ∪ localList) =
    (responses.foldl (fun acc r => acc ∪ sourceDomains r) ∅) ∪ localList
  rw [← Finset.union_assoc, Finset.union_self]

/-! ## Quota ledger lemmas (claims C3, C9) -/

/-- Reading back the entry usageSet just wrote. -/
theorem usageGet_usageSet (u : List (Int × Nat)) (d : Int) (n : Nat) :
    usageGet (usageSet u d n) d = n := by
  induction u with
  | nil => simp [usageSet, usageGet]
  | cons p ps ih =>
    by_cases hp : p.1 = d
    · simp [usageSet, usageGet, hp]
    · simp [usageSet, usageGet, hp, ih]

/-- One check_and_consume_quota step on a single-client state whose key
matches. -/
theorem quota_step_singleton (cid k : List Char) (L : Nat) (u : List (Int × Nat))
    (now tzOff : Int) (hk : k.isEmpty = false) :
    check_and_consume_quota [(cid, ⟨k, L, u⟩)] k now tzOff =
      (if L ≤ usageGet u (date_today now tzOff) then
        ((false, some ("daily_limit_exceeded".data)), [(cid, ⟨k, L, u⟩)])
      else
        ((true, none),
          [(cid, ⟨k, L, usageSet u (date_today now tzOff)
            (usageGet u (date_today now tzOff) + 1)⟩)])) := by
  unfold check_and_consume_quota
  rw [hk]
  simp [List.find?_cons, updateClient]

/-- A call that fails (in particular with daily_limit_exceeded) returns
the CLIENTS state unchanged. -/
theorem quota_fail_no_mutation (clients : Clients) (k : List Char)
    (now tzOff : Int)
    (h : (check_and_consume_quota clients k now tzOff).1 =
      (false, some ("daily_limit_exceeded".data))) :
    (check_and_consume_quota clients k now tzOff).2 = clients := by
  unfold check_and_consume_quota at h ⊢
  by_cases hk : k.isEmpty = true
  · rw [if_pos hk]
  · rw [if_neg hk] at h ⊢
    cases hfind : clients.find? (fun p => p.2.key == k) with
    | none => rfl
    | some pr =>
      obtain ⟨cid, client⟩ := pr
      rw [hfind] at h
      dsimp only at h ⊢
      by_cases hlim : client.limit ≤ usageGet client.usage (date_today now tzOff)
      · rw [if_pos hlim]
      · rw [if_neg hlim] at h
        simp at h

/-- Flags and final count of a run of n quota calls against a single
client: starting from count m for today, call number i (zero-based)
succeeds exactly when m + i < L, and the final stored count is the start
count advanced to at most the limit. -/
theorem runQuota_singleton (cid k : List Char) (L : Nat) (now tzOff : Int)
    (hk : k.isEmpty = false) :
    ∀ (n : Nat) (u : List (Int × Nat)) (m : Nat),
      usageGet u (date_today now tzOff) = m →
      (runQuota k now tzOff n [(cid, ⟨k, L, u⟩)]).1 =
        (List.range n).map (fun i => decide (m + i < L)) ∧
      ∃ u2, (runQuota k now tzOff n [(cid, ⟨k, L, u⟩)]).2 = [(cid, ⟨k, L, u2⟩)] ∧
        usageGet u2 (date_today now tzOff) = max m (min (m + n) L) := by
  intro n
  induction n with
  | zero =>
    intro u m hm
    constructor
    · simp [runQuota]
    · refine ⟨u, rfl, ?_⟩
      rw [hm]
      omega
  | succ n ih =>
    intro u m hm
    have hstep := quota_step_singleton cid k L u now tzOff hk
    rw [hm] at hstep
    by_cases hlim : L ≤ m
    · rw [if_pos hlim] at hstep
      obtain ⟨hflags, u2, hstate, hcount⟩ := ih u m hm
      refine ⟨?_, u2, ?_, ?_⟩
      · show (check_and_consume_quota [(cid, ⟨k, L, u⟩)] k now tzOff).1.1 ::
            (runQuota k now tzOff n
              (check_and_consume_quota [(cid, ⟨k, L, u⟩)] k now tzOff).2).1 = _
        rw [hstep]
        show false :: (runQuota k now tzOff n [(cid, ⟨k, L, u⟩)]).1 = _
        rw [hflags, List.range_succ_eq_map, List.map_cons, List.map_map]
        refine congrArg₂ _ ?_ ?_
        · symm
          rw [decide_eq_false_iff_not]
          omega
        · symm
          apply List.map_congr_left
          intro i _
          simp only [Function.comp]
          rw [decide_eq_decide]
          omega
      · show (runQuota k now tzOff n
            (check_and_consume_quota [(cid, ⟨k, L, u⟩)] k now tzOff).2).2 = _
        rw [hstep]
        exact hstate
      · rw [hcount]
        omega
    · rw [if_neg hlim] at hstep
      have hget := usageGet_usageSet u (date_today now tzOff) (m + 1)
      obtain ⟨hflags, u2, hstate, hcount⟩ :=
        ih (usageSet u (date_today now tzOff) (m + 1)) (m + 1) hget
      refine ⟨?_, u2, ?_, ?_⟩
      · show (check_and_consume_quota [(cid, ⟨k, L, u⟩)] k now tzOff).1.1 ::
            (runQuota k now tzOff n
              (check_and_consume_quota [(cid, ⟨k, L, u⟩)] k now tzOff).2).1 = _
        rw [hstep]
        show true :: (runQuota k now tzOff n
          [(cid, ⟨k, L, usageSet u (date_today now tzOff) (m + 1)⟩)]).1 = _
        rw [hflags, List.range_succ_eq_map, List.map_cons, List.map_map]
        refine congrArg₂ _ ?_ ?_
        · symm
          rw [decide_eq_true_eq]
          omega
        · symm
          apply List.map_congr_left
          intro i _
          simp only [Function.comp]
          rw [decide_eq_decide]
          omega
      · show (runQuota k now tzOff n
            (check_and_consume_quota [(cid, ⟨k, L, u⟩)] k now tzOff).2).2 = _
        rw [hstep]
        exact hstate
      · rw [hcount]
        omega

/-- C3: for one client with daily limit L on one (fixed) day, a fresh
sequence of n check_and_consume_quota calls succeeds exactly on the first
L calls and every later call returns daily_limit_exceeded; the stored
count for the day ends at min n L and never exceeds L; and any call that
fails with daily_limit_exceeded leaves the whole CLIENTS state (this
client's usage map and every other client) unchanged. -/
theorem quota_daily_limit (cid k : List Char) (L : Nat) (now tzOff : Int)
    (u : List (Int × Nat)) (n : Nat)
    (hk : k.isEmpty = false)
    (h0 : usageGet u (date_today now tzOff) = 0) :
    (runQuota k now tzOff n [(cid, ⟨k, L, u⟩)]).1 =
      (List.range n).map (fun i => decide (i < L)) ∧
    (∃ u2, (runQuota k now tzOff n [(cid, ⟨k, L, u⟩)]).2 = [(cid, ⟨k, L, u2⟩)] ∧
      usageGet u2 (date_today now tzOff) = min n L ∧
      usageGet u2 (date_today now tzOff) ≤ L) ∧
    (∀ clients : Clients,
      (check_and_consume_quota clients k now tzOff).1 =
        (false, some ("daily_limit_exceeded".data)) →
      (check_and_consume_quota clients k now tzOff).2 = clients) := by
  obtain ⟨hflags, u2, hstate, hcount⟩ :=
    runQuota_singleton cid k L now tzOff hk n u 0 h0
  refine ⟨?_, ⟨u2, hstate, ?_, ?_⟩, ?_⟩
  · rw [hflags]
    apply List.map_congr_left
    intro i _
    rw [decide_eq_decide]
    omega
  · rw [hcount]
    omega
  · rw [hcount]
    omega
  · intro clients hfail
    exact quota_fail_no_mutation clients k now tzOff hfail

/-- C3 witness: limit 2, four calls: exactly the first two succeed. -/
theorem quota_daily_limit_witness :
    ("demo_key_123".data.isEmpty = false) ∧
    usageGet [] (date_today 0 0) = 0 ∧
    (runQuota ("demo_key_123".data) 0 0 4
        [( "demo".data, ⟨ "demo_key_123".data, 2, []⟩)]).1 =
      (List.range 4).map (fun i => decide (i < 2)) :=
  ⟨by decide, by decide,
    (quota_daily_limit ("demo".data) ("demo_key_123".data) 2 0 0 [] 4
      (by decide) (by decide)).1⟩

/-! ## The usage key is the server-local date, not UTC (claim C9) -/

/-- C9 counterexample: at the instant 1800 seconds after the epoch, a
server in timezone UTC-01:00 records a consumed call under local day -1,
while the UTC calendar date of that instant is day 0: the stored key
varies with the server's local timezone. -/
theorem today_key_not_utc_cex :
    (check_and_consume_quota
        [( "demo".data, ⟨ "demo_key_123".data, 100, []⟩)]
        ("demo_key_123".data) 1800 (-3600)).2 =
      [( "demo".data, ⟨ "demo_key_123".data, 100, [(-1, 1)]⟩)] ∧
    utc_date 1800 = 0 ∧ ((-1 : Int) ≠ (0 : Int)) := by
  decide

/-- C9 amended: check_and_consume_quota computes the usage key with
datetime.date.today(), the server's LOCAL calendar date (the floor of
(now + tzOff) / 86400): a successful call is recorded under
date_today now tzOff, and this key coincides with the UTC date exactly
in the tzOff = 0 configuration. -/
theorem today_key_is_local_date (cid k : List Char) (client : ClientRec)
    (now tzOff : Int) (hk : k.isEmpty = false) (hkey : client.key = k)
    (hc : usageGet client.usage (date_today now tzOff) < client.limit) :
    (check_and_consume_quota [(cid, client)] k now tzOff).2 =
      [(cid, ⟨client.key, client.limit,
        usageSet client.usage (date_today now tzOff)
          (usageGet client.usage (date_today now tzOff) + 1)⟩)] ∧
    date_today now 0 = utc_date now := by
  constructor
  · obtain ⟨ck, cl, cu⟩ := client
    simp only at hkey hc ⊢
    subst hkey
    have hstep := quota_step_singleton cid ck cl cu now tzOff hk
    rw [hstep, if_neg (by omega : ¬(cl ≤ usageGet cu (date_today now tzOff)))]
  · simp [date_today, utc_date]

/-- C9 amended witness: at instant 0 with offset 0 the call is recorded
under day 0, which is the UTC date. -/
theorem today_key_is_local_date_witness :
    ("demo_key_123".data.isEmpty = false) ∧
    ((⟨ "demo_key_123".data, 100, []⟩ : ClientRec).key = "demo_key_123".data) ∧
    usageGet ((⟨ "demo_key_123".data, 100, []⟩ : ClientRec).usage)
      (date_today 0 0) < 100 ∧
    ((check_and_consume_quota
        [( "demo".data, ⟨ "demo_key_123".data, 100, []⟩)]
        ("demo_key_123".data) 0 0).2 =
      [( "demo".data, ⟨ "demo_key_123".data, 100,
        usageSet [] (date_today 0 0) (usageGet [] (date_today 0 0) + 1)⟩)] ∧
      date_today 0 0 = utc_date 0) :=
  ⟨by decide, by decide, by decide,
    today_key_is_local_date ("demo".data) ("demo_key_123".data)
      ⟨ "demo_key_123".data, 100, []⟩ 0 0 (by decide) (by decide) (by decide)⟩

end Truemailer
